import Mathlib

/-!
Shallow embedding of the Notion-to-MDX rendering core
(`src/models/pageblocks.py`) and the block-fetch collaborator
(`src/utils/notion.py`), together with theorems settling the frozen
claims about the natural-language specification of the repository.

Machine strings are Lean `String`; Python `datetime` values are kept as
opaque strings (rendering never reads them); optional fields are
`Option`; Python list/str truthiness is spelled out as emptiness tests.
-/

set_option maxHeartbeats 1000000

namespace NotionMdx

/-- Notion text and background colors (`NotionColor` enum in
`models/pageblocks.py`). -/
inductive NotionColor where
  | default
  | gray
  | brown
  | orange
  | yellow
  | green
  | blue
  | purple
  | pink
  | red
  | gray_background
  | brown_background
  | orange_background
  | yellow_background
  | green_background
  | blue_background
  | purple_background
  | pink_background
  | red_background
deriving DecidableEq

/-- The `.value` string of a `NotionColor` member (Python `str, Enum`). -/
def NotionColor.value : NotionColor → String
  | .default => "default"
  | .gray => "gray"
  | .brown => "brown"
  | .orange => "orange"
  | .yellow => "yellow"
  | .green => "green"
  | .blue => "blue"
  | .purple => "purple"
  | .pink => "pink"
  | .red => "red"
  | .gray_background => "gray_background"
  | .brown_background => "brown_background"
  | .orange_background => "orange_background"
  | .yellow_background => "yellow_background"
  | .green_background => "green_background"
  | .blue_background => "blue_background"
  | .purple_background => "purple_background"
  | .pink_background => "pink_background"
  | .red_background => "red_background"

/-- Text annotations for rich text (`Annotations` model). -/
structure Annotations where
  bold : Bool := false
  italic : Bool := false
  strikethrough : Bool := false
  underline : Bool := false
  code : Bool := false
  color : NotionColor := .default
deriving DecidableEq

/-- Text content with optional link (`TextContent`); the `link` dict is
kept as an association list. -/
structure TextContent where
  content : String
  link : Option (List (String × String)) := none
deriving DecidableEq

/-- Date mention content (`MentionDate`); the source field `end` is a
Lean keyword and is rendered here as `end_`. -/
structure MentionDate where
  start : String
  end_ : Option String := none
  time_zone : Option String := none
deriving DecidableEq

/-- Mention object within rich text (`Mention`). -/
structure Mention where
  type : String
  date : Option MentionDate := none
  link_preview : Option (List (String × String)) := none
deriving DecidableEq

/-- Equation content, a LaTeX expression (`Equation`). -/
structure Equation where
  expression : String
deriving DecidableEq

/-- Rich text object, the fundamental text unit (`RichText`). -/
structure RichText where
  type : String
  text : Option TextContent := none
  mention : Option Mention := none
  equation : Option Equation := none
  annotations : Annotations := {}
  plain_text : String
  href : Option String := none
deriving DecidableEq

/-- Partial user object (`PartialUser`). -/
structure PartialUser where
  id : String
deriving DecidableEq

/-- Parent object for blocks (`Parent`). -/
structure Parent where
  type : String
  page_id : Option String := none
  block_id : Option String := none
  database_id : Option String := none
  workspace : Option Bool := none
deriving DecidableEq

/-- External file reference (`ExternalFile`). -/
structure ExternalFile where
  url : String
deriving DecidableEq

/-- Generic file object (`FileObject`). -/
structure FileObject where
  type : String
  external : Option ExternalFile := none
  caption : List RichText := []
  name : Option String := none
deriving DecidableEq

/-- Icon objects: `EmojiIcon` or `FileIcon` (the `Icon` union). -/
inductive Icon where
  | emojiIcon (emoji : String)
  | fileIcon (type : String) (external : Option ExternalFile)
deriving DecidableEq

/-- Base content for blocks with rich text, color, and optional children
(`RichTextBlockContent`).  The `children` slot is `list[Any] | None` in
the source; it is declared but never populated nor read by the renderers,
so its element type is irrelevant and kept as `Unit`. -/
structure RichTextBlockContent where
  rich_text : List RichText := []
  color : NotionColor := .default
  children : Option (List Unit) := none
deriving DecidableEq

/-- `ParagraphContent`: same shape as `RichTextBlockContent`. -/
abbrev ParagraphContent := RichTextBlockContent

/-- `BulletedListItemContent`: same shape as `RichTextBlockContent`. -/
abbrev BulletedListItemContent := RichTextBlockContent

/-- `NumberedListItemContent`: same shape as `RichTextBlockContent`. -/
abbrev NumberedListItemContent := RichTextBlockContent

/-- `ToggleContent`: same shape as `RichTextBlockContent`. -/
abbrev ToggleContent := RichTextBlockContent

/-- `QuoteContent`: same shape as `RichTextBlockContent`. -/
abbrev QuoteContent := RichTextBlockContent

/-- Heading block content (`HeadingContent`). -/
structure HeadingContent where
  rich_text : List RichText := []
  color : NotionColor := .default
  is_toggleable : Bool := false
deriving DecidableEq

/-- To-do block content (`ToDoContent`). -/
structure ToDoContent extends RichTextBlockContent where
  checked : Bool := false
deriving DecidableEq

/-- Callout block content (`CalloutContent`). -/
structure CalloutContent where
  rich_text : List RichText := []
  icon : Option Icon := none
  color : NotionColor := .default
deriving DecidableEq

/-- Code block content (`CodeContent`). -/
structure CodeContent where
  rich_text : List RichText := []
  caption : List RichText := []
  language : String := "plain text"
deriving DecidableEq

/-- Child page block content (`ChildPageContent`). -/
structure ChildPageContent where
  title : String
deriving DecidableEq

/-- Child database block content (`ChildDatabaseContent`). -/
structure ChildDatabaseContent where
  title : String
deriving DecidableEq

/-- Embed block content (`EmbedContent`). -/
structure EmbedContent where
  url : String
deriving DecidableEq

/-- Bookmark block content (`BookmarkContent`). -/
structure BookmarkContent where
  url : String
  caption : List RichText := []
deriving DecidableEq

/-- Equation block content (`EquationContent`). -/
structure EquationContent where
  expression : String
deriving DecidableEq

/-- Table of contents block content (`TableOfContentsContent`). -/
structure TableOfContentsContent where
  color : NotionColor := .default
deriving DecidableEq

/-- Link preview block content (`LinkPreviewContent`). -/
structure LinkPreviewContent where
  url : String
deriving DecidableEq

/-- Table block content (`TableContent`). -/
structure TableContent where
  table_width : Nat
  has_column_header : Bool := false
  has_row_header : Bool := false
deriving DecidableEq

/-- Table row block content (`TableRowContent`). -/
structure TableRowContent where
  cells : List (List RichText) := []
deriving DecidableEq

/-- The tagged union of block payloads.  Each constructor corresponds to
one concrete block class of the Python discriminated union `Block`
(`ParagraphBlock`, ..., `UnsupportedBlock`); the constructor name is the
discriminator literal.  `divider`, `breadcrumb`, `column_list` and
`column` carry empty content models in the source and no payload here. -/
inductive BlockData where
  | paragraph (paragraph : ParagraphContent)
  | heading_1 (heading_1 : HeadingContent)
  | heading_2 (heading_2 : HeadingContent)
  | heading_3 (heading_3 : HeadingContent)
  | bulleted_list_item (bulleted_list_item : BulletedListItemContent)
  | numbered_list_item (numbered_list_item : NumberedListItemContent)
  | to_do (to_do : ToDoContent)
  | toggle (toggle : ToggleContent)
  | code (code : CodeContent)
  | child_page (child_page : ChildPageContent)
  | child_database (child_database : ChildDatabaseContent)
  | embed (embed : EmbedContent)
  | image (image : FileObject)
  | video (video : FileObject)
  | file (file : FileObject)
  | pdf (pdf : FileObject)
  | audio (audio : FileObject)
  | bookmark (bookmark : BookmarkContent)
  | callout (callout : CalloutContent)
  | quote (quote : QuoteContent)
  | equation (equation : EquationContent)
  | divider
  | table_of_contents (table_of_contents : TableOfContentsContent)
  | breadcrumb
  | column_list
  | column
  | link_preview (link_preview : LinkPreviewContent)
  | table (table : TableContent)
  | table_row (table_row : TableRowContent)
  | unsupported
deriving DecidableEq

/-- The discriminator string of a block payload (the `type` literal of
the corresponding Python block class). -/
def BlockData.tag : BlockData → String
  | .paragraph _ => "paragraph"
  | .heading_1 _ => "heading_1"
  | .heading_2 _ => "heading_2"
  | .heading_3 _ => "heading_3"
  | .bulleted_list_item _ => "bulleted_list_item"
  | .numbered_list_item _ => "numbered_list_item"
  | .to_do _ => "to_do"
  | .toggle _ => "toggle"
  | .code _ => "code"
  | .child_page _ => "child_page"
  | .child_database _ => "child_database"
  | .embed _ => "embed"
  | .image _ => "image"
  | .video _ => "video"
  | .file _ => "file"
  | .pdf _ => "pdf"
  | .audio _ => "audio"
  | .bookmark _ => "bookmark"
  | .callout _ => "callout"
  | .quote _ => "quote"
  | .equation _ => "equation"
  | .divider => "divider"
  | .table_of_contents _ => "table_of_contents"
  | .breadcrumb => "breadcrumb"
  | .column_list => "column_list"
  | .column => "column"
  | .link_preview _ => "link_preview"
  | .table _ => "table"
  | .table_row _ => "table_row"
  | .unsupported => "unsupported"

/-- A Notion block: the `BlockBase` metadata fields shared by every
concrete block class, plus exactly one type-specific payload.  The two
datetime fields are opaque to the rendering core and kept as strings. -/
structure Block where
  id : String
  parent : Parent
  created_time : String
  last_edited_time : String
  created_by : PartialUser
  last_edited_by : PartialUser
  has_children : Bool := false
  archived : Bool := false
  in_trash : Bool := false
  data : BlockData
deriving DecidableEq

/-- The discriminator string of a block (`block.type` in the source). -/
def Block.type (b : Block) : String := b.data.tag

/-- Response from the Retrieve Block Children endpoint
(`PageBlocksResponse`).  The `block` dict payload is kept as an
association list. -/
structure PageBlocksResponse where
  object : String := "list"
  results : List Block
  next_cursor : Option String := none
  has_more : Bool := false
  type : String := "block"
  block : List (String × String) := []
  request_id : Option String := none
deriving DecidableEq

/-- The closed set of discriminator literals of the pydantic
discriminated union `Block` (29 supported variants plus the explicit
literal `unsupported`). -/
def supported_block_tags : List String :=
  ["paragraph", "heading_1", "heading_2", "heading_3", "bulleted_list_item",
   "numbered_list_item", "to_do", "toggle", "code", "child_page",
   "child_database", "embed", "image", "video", "file", "pdf", "audio",
   "bookmark", "callout", "quote", "equation", "divider",
   "table_of_contents", "breadcrumb", "column_list", "column",
   "link_preview", "table", "table_row", "unsupported"]

/-- Discriminator dispatch of
`Block = Annotated[Union[...], Field(discriminator="type")]`: pydantic
selects the union member whose `type` literal equals the raw block's
discriminator, and raises a validation error — modelled as `none` — when
the discriminator matches no member's literal. -/
def block_union_dispatch (tag : String) : Option String :=
  if tag ∈ supported_block_tags then some tag else none

/-- `PageBlocksResponse._extract_plain_text`: `"".join` of the
`plain_text` of each rich text object. -/
def extract_plain_text : List RichText → String
  | [] => ""
  | rt :: rest => rt.plain_text ++ extract_plain_text rest

/-- The per-span body of `PageBlocksResponse._rich_text_to_markdown`:
formatting applied in source order (code, bold, italic, strikethrough;
underline has no standard markdown and is skipped), then the hyperlink
wrap when `rt.href` is truthy, i.e. present and non-empty. -/
def format_rich_text_span (rt : RichText) : String :=
  let text := rt.plain_text
  let text := if rt.annotations.code then "`" ++ text ++ "`" else text
  let text := if rt.annotations.bold then "**" ++ text ++ "**" else text
  let text := if rt.annotations.italic then "*" ++ text ++ "*" else text
  let text := if rt.annotations.strikethrough then "~~" ++ text ++ "~~" else text
  match rt.href with
  | some h => if h = "" then text else "[" ++ text ++ "](" ++ h ++ ")"
  | none => text

/-- `PageBlocksResponse._rich_text_to_markdown`: per-span results joined
with no separator. -/
def rich_text_to_markdown : List RichText → String
  | [] => ""
  | rt :: rest => format_rich_text_span rt ++ rich_text_to_markdown rest

/-- Python `str.split` with a single-character separator, over the
character list: splitting the empty string gives `[[]]`, and a trailing
separator yields a trailing empty field. -/
def split_char (sep : Char) : List Char → List (List Char)
  | [] => [[]]
  | c :: rest =>
    match split_char sep rest with
    | [] => [[]]
    | line :: others =>
      if c = sep then [] :: line :: others else (c :: line) :: others

/-- Python `text.split("\n")` on a Lean string. -/
def split_newlines (s : String) : List String :=
  (split_char (Char.ofNat 10) s.data).map (fun cs => String.mk cs)

/-- Python `sep.join(parts)`. -/
def join_with (sep : String) : List String → String
  | [] => ""
  | [s] => s
  | s :: rest => s ++ sep ++ join_with sep rest

/-- Python `"".join(parts)`: concatenation in order with no separator. -/
def str_join : List String → String
  | [] => ""
  | s :: rest => s ++ str_join rest

/-- `PageBlocksResponse._wrap_with_color`: wrap text in a color `Span`
component unless the color is `"default"` or falsy (empty). -/
def wrap_with_color (text : String) (color : String) : String :=
  if color = "default" ∨ color = "" then text
  else "<Span color=\"" ++ color ++ "\">" ++ text ++ "</Span>"

/-- Python `"  " * indent`. -/
def indent_string (indent : Nat) : String :=
  str_join (List.replicate indent "  ")

/-- The repeated `url = block.X.external.url if block.X.external else ""`
snippet of both renderers: the external URL of a file object, or the
empty string when there is none. -/
def external_url (fo : FileObject) : String :=
  match fo.external with
  | some e => e.url
  | none => ""

/-- `PageBlocksResponse._block_to_markdown`: convert a single block to a
plain-Markdown fragment. -/
def block_to_markdown (block : Block) (indent : Nat) (number : Option Nat) : String :=
  let indent_str := indent_string indent
  match block.data with
  | .paragraph p =>
    let text := rich_text_to_markdown p.rich_text
    if text = "" then "\n" else indent_str ++ text ++ "\n"
  | .heading_1 h => "# " ++ rich_text_to_markdown h.rich_text ++ "\n"
  | .heading_2 h => "## " ++ rich_text_to_markdown h.rich_text ++ "\n"
  | .heading_3 h => "### " ++ rich_text_to_markdown h.rich_text ++ "\n"
  | .bulleted_list_item c =>
    indent_str ++ "- " ++ rich_text_to_markdown c.rich_text ++ "\n"
  | .numbered_list_item c =>
    let num := match number with | some n => n | none => 1
    indent_str ++ toString num ++ ". " ++ rich_text_to_markdown c.rich_text ++ "\n"
  | .to_do c =>
    let checkbox := if c.checked then "[x]" else "[ ]"
    indent_str ++ "- " ++ checkbox ++ " " ++ rich_text_to_markdown c.rich_text ++ "\n"
  | .toggle c =>
    let text := rich_text_to_markdown c.rich_text
    indent_str ++ "<details>\n" ++ indent_str ++ "<summary>" ++ text ++
      "</summary>\n" ++ indent_str ++ "</details>\n"
  | .code c =>
    "```" ++ c.language ++ "\n" ++ extract_plain_text c.rich_text ++ "\n```\n"
  | .quote c =>
    let text := rich_text_to_markdown c.rich_text
    let quoted := join_with "\n" ((split_newlines text).map (fun line => "> " ++ line))
    quoted ++ "\n"
  | .callout c =>
    let text := rich_text_to_markdown c.rich_text
    let icon := match c.icon with
      | some (.emojiIcon e) => e ++ " "
      | _ => ""
    "> " ++ icon ++ text ++ "\n"
  | .divider => "---\n"
  | .equation e => "$$\n" ++ e.expression ++ "\n$$\n"
  | .image fo =>
    let url := external_url fo
    let caption := if fo.caption ≠ [] then rich_text_to_markdown fo.caption else "image"
    "![" ++ caption ++ "](" ++ url ++ ")\n"
  | .video fo =>
    let url := external_url fo
    "[Video](" ++ url ++ ")\n"
  | .audio fo =>
    let url := external_url fo
    "[Audio](" ++ url ++ ")\n"
  | .file fo =>
    let url := external_url fo
    let name := match fo.name with
      | some n => if n = "" then "file" else n
      | none => "file"
    "[" ++ name ++ "](" ++ url ++ ")\n"
  | .pdf fo =>
    let url := external_url fo
    "[PDF](" ++ url ++ ")\n"
  | .bookmark bm =>
    let caption := if bm.caption ≠ [] then rich_text_to_markdown bm.caption else bm.url
    "[" ++ caption ++ "](" ++ bm.url ++ ")\n"
  | .embed em => "[Embed](" ++ em.url ++ ")\n"
  | .link_preview lp => "[Link](" ++ lp.url ++ ")\n"
  | .child_page cp => "📄 [" ++ cp.title ++ "]()\n"
  | .child_database cd => "🗄️ [" ++ cd.title ++ "]()\n"
  | .table_of_contents _ => "[TOC]\n"
  | .breadcrumb => ""
  | .column_list => ""
  | .column => ""
  | .table _ => ""
  | .table_row tr =>
    "| " ++ join_with " | " (tr.cells.map rich_text_to_markdown) ++ " |\n"
  | .unsupported => ""

/-- `PageBlocksResponse._block_to_mdx`: convert a single block to an MDX
fragment with JSX components. -/
def block_to_mdx (block : Block) (indent : Nat) (number : Option Nat) : String :=
  let indent_str := indent_string indent
  match block.data with
  | .paragraph p =>
    let text := rich_text_to_markdown p.rich_text
    let color := p.color.value
    if text = "" then "\n"
    else indent_str ++ wrap_with_color text color ++ "\n"
  | .heading_1 h =>
    "# " ++ wrap_with_color (rich_text_to_markdown h.rich_text) h.color.value ++ "\n"
  | .heading_2 h =>
    "## " ++ wrap_with_color (rich_text_to_markdown h.rich_text) h.color.value ++ "\n"
  | .heading_3 h =>
    "### " ++ wrap_with_color (rich_text_to_markdown h.rich_text) h.color.value ++ "\n"
  | .bulleted_list_item c =>
    indent_str ++ "- " ++
      wrap_with_color (rich_text_to_markdown c.rich_text) c.color.value ++ "\n"
  | .numbered_list_item c =>
    let text := wrap_with_color (rich_text_to_markdown c.rich_text) c.color.value
    let num := match number with | some n => n | none => 1
    indent_str ++ toString num ++ ". " ++ text ++ "\n"
  | .to_do c =>
    let text := wrap_with_color (rich_text_to_markdown c.rich_text) c.color.value
    let checkbox := if c.checked then "[x]" else "[ ]"
    indent_str ++ "- " ++ checkbox ++ " " ++ text ++ "\n"
  | .toggle c =>
    let text := rich_text_to_markdown c.rich_text
    "<Accordion title=\"" ++ text ++ "\" color=\"" ++ c.color.value ++ "\">\n</Accordion>\n"
  | .code c =>
    "```" ++ c.language ++ "\n" ++ extract_plain_text c.rich_text ++ "\n```\n"
  | .quote c =>
    let text := rich_text_to_markdown c.rich_text
    let color := c.color.value
    if color ≠ "default" then
      "<Quote color=\"" ++ color ++ "\">" ++ text ++ "</Quote>\n"
    else
      let quoted := join_with "\n" ((split_newlines text).map (fun line => "> " ++ line))
      quoted ++ "\n"
  | .callout c =>
    let text := rich_text_to_markdown c.rich_text
    let color := c.color.value
    let icon := match c.icon with
      | some (.emojiIcon e) => e
      | _ => ""
    "<Callout icon=\"" ++ icon ++ "\" color=\"" ++ color ++ "\">\n  " ++ text ++ "\n</Callout>\n"
  | .divider => "---\n"
  | .equation e => "<Math>" ++ e.expression ++ "</Math>\n"
  | .image fo =>
    let url := external_url fo
    let caption := if fo.caption ≠ [] then rich_text_to_markdown fo.caption else ""
    if caption ≠ "" then
      "<Image src=\"" ++ url ++ "\" alt=\"" ++ caption ++ "\" />\n"
    else
      "<Image src=\"" ++ url ++ "\" />\n"
  | .video fo =>
    let url := external_url fo
    "<Video src=\"" ++ url ++ "\" />\n"
  | .audio fo =>
    let url := external_url fo
    "<Audio src=\"" ++ url ++ "\" />\n"
  | .file fo =>
    let url := external_url fo
    let name := match fo.name with
      | some n => if n = "" then "file" else n
      | none => "file"
    "<FileDownload href=\"" ++ url ++ "\" name=\"" ++ name ++ "\" />\n"
  | .pdf fo =>
    let url := external_url fo
    "<PDF src=\"" ++ url ++ "\" />\n"
  | .bookmark bm =>
    let caption := if bm.caption ≠ [] then rich_text_to_markdown bm.caption else bm.url
    "<Bookmark url=\"" ++ bm.url ++ "\" title=\"" ++ caption ++ "\" />\n"
  | .embed em => "<Embed url=\"" ++ em.url ++ "\" />\n"
  | .link_preview lp => "<LinkPreview url=\"" ++ lp.url ++ "\" />\n"
  | .child_page cp => "<ChildPage title=\"" ++ cp.title ++ "\" />\n"
  | .child_database cd => "<ChildDatabase title=\"" ++ cd.title ++ "\" />\n"
  | .table_of_contents c =>
    let color := c.color.value
    if color ≠ "default" then "<TableOfContents color=\"" ++ color ++ "\" />\n"
    else "<TableOfContents />\n"
  | .breadcrumb => ""
  | .column_list => ""
  | .column => ""
  | .table _ => ""
  | .table_row tr =>
    "| " ++ join_with " | " (tr.cells.map rich_text_to_markdown) ++ " |\n"
  | .unsupported => ""

/-- One step of the numbered-list run counter maintained by
`to_markdown`/`to_mdx`: reset to 0 when a non-numbered-list block
immediately follows a numbered-list block, then increment when the
current block is itself a numbered-list item. -/
def counter_step (counter : Nat) (prev_type : Option String) (block_type : String) : Nat :=
  let counter :=
    if block_type ≠ "numbered_list_item" ∧ prev_type = some "numbered_list_item"
    then 0 else counter
  if block_type = "numbered_list_item" then counter + 1 else counter

/-- The document-assembly loop shared by `PageBlocksResponse.to_markdown`
and `PageBlocksResponse.to_mdx`; the two methods in the source inline
this identical loop with a different per-block renderer.  It tracks the
numbered-list counter and the previous block type, renders each block
(passing the counter to numbered-list items, `indent` fixed at 0), and
appends non-empty fragments to the output. -/
def assemble_go (render : Block → Nat → Option Nat → String) :
    List Block → Nat → Option String → String
  | [], _, _ => ""
  | block :: rest, counter, prev_type =>
    let block_type := block.type
    let counter := counter_step counter prev_type block_type
    let frag :=
      if block_type = "numbered_list_item" then render block 0 (some counter)
      else render block 0 none
    (if frag = "" then "" else frag) ++ assemble_go render rest counter (some block_type)

/-- `PageBlocksResponse.to_markdown`.  The source method also contains a
readability-spacing `if` whose every branch is `pass`; it has no effect
on the output and is omitted here. -/
def PageBlocksResponse.to_markdown (r : PageBlocksResponse) : String :=
  assemble_go block_to_markdown r.results 0 none

/-- `PageBlocksResponse.to_mdx`. -/
def PageBlocksResponse.to_mdx (r : PageBlocksResponse) : String :=
  assemble_go block_to_mdx r.results 0 none

/-- The state (counter, previous type) of the assembly loop after
consuming a list of block types. -/
def counter_state : List String → Nat → Option String → Nat × Option String
  | [], counter, prev => (counter, prev)
  | bt :: rest, counter, prev => counter_state rest (counter_step counter prev bt) (some bt)

/-- The sequence of numbers the assembly loop passes to the per-block
renderer: `some n` for a numbered-list item (its run counter), `none`
for every other block type. -/
def run_numbers : List String → Nat → Option String → List (Option Nat)
  | [], _, _ => []
  | bt :: rest, counter, prev =>
    let c := counter_step counter prev bt
    (if bt = "numbered_list_item" then some c else none) :: run_numbers rest c (some bt)

/-- The loop of `fetch_all_blocks` in `utils/notion.py`.  The remote
endpoint is modelled by the list of responses it returns to the
successive `get_block_children` requests, in request order; the loop
consumes one response per iteration and stops after the first response
with `has_more = false`.  The result is `none` when the supplied
responses are exhausted while `has_more` still holds (the situation in
which the real loop would keep issuing requests). -/
def fetch_all_blocks_go :
    List PageBlocksResponse → List Block → Option PageBlocksResponse →
      Option PageBlocksResponse
  | [], _, _ => none
  | response :: rest, all_results, first_response =>
    let first_response := match first_response with
      | none => some response
      | some f => some f
    let all_results := all_results ++ response.results
    if response.has_more then fetch_all_blocks_go rest all_results first_response
    else
      match first_response with
      | some f => some { f with results := all_results, has_more := false, next_cursor := none }
      | none => none

/-- `fetch_all_blocks`: merge all paginated responses into the first
response, with the concatenated results and cleared cursor state. -/
def fetch_all_blocks (pages : List PageBlocksResponse) : Option PageBlocksResponse :=
  fetch_all_blocks_go pages [] none

/-- Number of (possibly overlapping) occurrences of `pat` as a substring
of `s`: the number of suffixes of `s` that `pat` is a prefix of. -/
def count_occurrences (pat s : String) : Nat :=
  s.data.tails.countP (fun t => pat.data.isPrefixOf t)

/-- Spec-side wrapper of claim C2, step 1: code maps to a backtick pair. -/
def wrap_code (b : Bool) (t : String) : String :=
  if b then "`" ++ t ++ "`" else t

/-- Spec-side wrapper of claim C2, step 2: bold maps to a double-asterisk pair. -/
def wrap_bold (b : Bool) (t : String) : String :=
  if b then "**" ++ t ++ "**" else t

/-- Spec-side wrapper of claim C2, step 3: italic maps to a single-asterisk pair. -/
def wrap_italic (b : Bool) (t : String) : String :=
  if b then "*" ++ t ++ "*" else t

/-- Spec-side wrapper of claim C2, step 4: strikethrough maps to a double-tilde pair. -/
def wrap_strikethrough (b : Bool) (t : String) : String :=
  if b then "~~" ++ t ++ "~~" else t

/-- Spec-side wrapper of claim C2, step 6 as amended: a present,
non-empty href wraps the formatted text in `[text](href)`; an absent or
empty href leaves it unchanged. -/
def wrap_href (href : Option String) (t : String) : String :=
  match href with
  | some h => if h = "" then t else "[" ++ t ++ "](" ++ h ++ ")"
  | none => t

/-- Fixed parent used to build concrete sample blocks. -/
def sample_parent : Parent := { type := "page_id", page_id := some "p" }

/-- Fixed user used to build concrete sample blocks. -/
def sample_user : PartialUser := { id := "u" }

/-- A concrete block around a given payload, with fixed metadata. -/
def mk_block (d : BlockData) : Block :=
  { id := "b", parent := sample_parent, created_time := "2024-01-01T00:00:00Z",
    last_edited_time := "2024-01-01T00:00:00Z", created_by := sample_user,
    last_edited_by := sample_user, data := d }

/-- A concrete plain text span with default annotations and no href. -/
def mk_text_span (s : String) : RichText :=
  { type := "text", text := some { content := s }, plain_text := s }

/-- Whether the last block of a list (when any) is not a numbered-list
item: the condition under which the next numbered-list run restarts. -/
def ends_outside_numbered_run (pre : List Block) : Bool :=
  match pre.getLast? with
  | none => true
  | some b => Block.type b != "numbered_list_item"

/-! Helper lemmas shared by the claim theorems. -/

lemma ite_empty_id (s : String) : (if s = "" then "" else s) = s := by
  by_cases h : s = "" <;> simp [h]

lemma run_numbers_length (xs : List String) (c : Nat) (p : Option String) :
    (run_numbers xs c p).length = xs.length := by
  induction xs generalizing c p with
  | nil => simp [run_numbers]
  | cons bt rest ih => simp [run_numbers, ih]

lemma assemble_go_eq (render : Block → Nat → Option Nat → String)
    (bs : List Block) (c : Nat) (p : Option String) :
    assemble_go render bs c p =
      str_join (List.zipWith (fun b n => render b 0 n) bs
        (run_numbers (bs.map Block.type) c p)) := by
  induction bs generalizing c p with
  | nil => simp [assemble_go, run_numbers, str_join]
  | cons b rest ih =>
    by_cases h : b.type = "numbered_list_item" <;>
      simp [assemble_go, run_numbers, str_join, h, ite_empty_id, ih]

/-- Claim C2, as amended (corrected): per-span formatting applies, in
this order, code (backticks), bold (double asterisks), italic (single
asterisks), strikethrough (double tildes); underline is dropped; and a
present, non-empty `href` finally wraps the result as `[text](href)`,
while a present-but-empty `href` leaves the text unwrapped.  In
particular a span "x" with bold and code annotations and `href` "u"
renders to `[**`x`**](u)`. -/
theorem claim_c2_span_composition :
    (∀ (t : String) (a : Annotations) (h : Option String) (ty : String)
       (tc : Option TextContent) (mn : Option Mention) (e : Option Equation),
      rich_text_to_markdown
          [{ type := ty, text := tc, mention := mn, equation := e,
             annotations := a, plain_text := t, href := h }] =
        wrap_href h (wrap_strikethrough a.strikethrough
          (wrap_italic a.italic (wrap_bold a.bold (wrap_code a.code t))))) ∧
    rich_text_to_markdown
        [{ type := "text", text := some { content := "x" },
           annotations := { bold := true, code := true },
           plain_text := "x", href := some "u" }] = "[**`x`**](u)" := by
  constructor
  · intro t a h ty tc mn e
    obtain ⟨hb, hi, hs, hu, hc, hcol⟩ := a
    cases hb <;> cases hi <;> cases hs <;> cases hc <;> cases h <;>
      simp [rich_text_to_markdown, format_rich_text_span, wrap_href,
        wrap_strikethrough, wrap_italic, wrap_bold, wrap_code]
  · decide

/-- Claim C2 counterexample: the claim as stated says any present `href`
wraps the formatted text as `[text](href)`, but a span "x" with a
present, empty `href` renders unwrapped as "x", not as `[x]()`. -/
theorem claim_c2_counterexample :
    rich_text_to_markdown [{ mk_text_span "x" with href := some "" }] = "x" ∧
    rich_text_to_markdown [{ mk_text_span "x" with href := some "" }] ≠ "[x]()" := by
  decide

/-- Claim C4, as amended (corrected): wrapping with the default color —
or with an empty color string, which the helper also treats as falsy —
returns the text unchanged; wrapping with any other color returns
exactly `<Span color="COLOR">text</Span>`, the color carried once as the
attribute of a single Span wrapper.  (The full output can contain the
color token more than once when the text itself contains it, so "exactly
once" over the whole output does not hold for every text string.) -/
theorem claim_c4_color_wrap (text color : String) :
    wrap_with_color text "default" = text ∧
    wrap_with_color text "" = text ∧
    (color ≠ "default" → color ≠ "" →
      wrap_with_color text color =
        "<Span color=\"" ++ color ++ "\">" ++ text ++ "</Span>") := by
  refine ⟨by simp [wrap_with_color], by simp [wrap_with_color], ?_⟩
  intro h1 h2
  simp [wrap_with_color, h1, h2]

/-- Claim C4 witness: the amended claim applied at text "hi" and the
non-default color "blue". -/
theorem claim_c4_witness :
    ("blue" : String) ≠ "default" ∧ ("blue" : String) ≠ "" ∧
    wrap_with_color "hi" "blue" =
      "<Span color=\"" ++ "blue" ++ "\">" ++ "hi" ++ "</Span>" :=
  ⟨by decide, by decide,
    (claim_c4_color_wrap "hi" "blue").2.2 (by decide) (by decide)⟩

/-- Claim C4 counterexample: with the non-default color "blue" and the
text "blue", the output contains the color token twice, not exactly
once. -/
theorem claim_c4_counterexample :
    count_occurrences "blue" (wrap_with_color "blue" "blue") = 2 ∧
    count_occurrences "blue" (wrap_with_color "blue" "blue") ≠ 1 := by
  decide

/-- Claim C5 (confirmed): each document-level renderer output is the
concatenation, in source order and with no separators or trailing
normalization, of the per-block fragments of the corresponding
single-block renderer, with the numbered-list counter supplied per the
run-counter rule (`run_numbers`). -/
theorem claim_c5_concat (r : PageBlocksResponse) :
    r.to_markdown =
      str_join (List.zipWith (fun b n => block_to_markdown b 0 n) r.results
        (run_numbers (r.results.map Block.type) 0 none)) ∧
    r.to_mdx =
      str_join (List.zipWith (fun b n => block_to_mdx b 0 n) r.results
        (run_numbers (r.results.map Block.type) 0 none)) :=
  ⟨assemble_go_eq block_to_markdown r.results 0 none,
   assemble_go_eq block_to_mdx r.results 0 none⟩

/-- Claim C6 (confirmed): both renderers are pure functions of the block
sequence alone — two responses with the same `results` list render to
identical Markdown and identical MDX, whatever their other (cursor,
paging, request) state. -/
theorem claim_c6_pure (r1 r2 : PageBlocksResponse)
    (h : r1.results = r2.results) :
    r1.to_markdown = r2.to_markdown ∧ r1.to_mdx = r2.to_mdx := by
  unfold PageBlocksResponse.to_markdown PageBlocksResponse.to_mdx
  rw [h]
  exact ⟨rfl, rfl⟩

/-- First concrete response for the claim C6 witness: carries cursor and
paging state. -/
def sample_response_a : PageBlocksResponse :=
  { results := [mk_block .divider, mk_block (.paragraph { rich_text := [mk_text_span "hi"] })],
    next_cursor := some "cursor", has_more := true, request_id := some "r1" }

/-- Second concrete response for the claim C6 witness: same results, no
cursor or paging state. -/
def sample_response_b : PageBlocksResponse :=
  { results := [mk_block .divider, mk_block (.paragraph { rich_text := [mk_text_span "hi"] })] }

/-- Claim C6 witness: the purity theorem applied to two concrete
responses that differ in everything but their results. -/
theorem claim_c6_witness :
    sample_response_a.results = sample_response_b.results ∧
    (sample_response_a.to_markdown = sample_response_b.to_markdown ∧
     sample_response_a.to_mdx = sample_response_b.to_mdx) :=
  ⟨rfl, claim_c6_pure sample_response_a sample_response_b rfl⟩

/-- Claim C8 (confirmed): a callout block with emoji icon "💡", rich
text rendering to "note", and default color renders in the markup
dialect to exactly `<Callout icon="💡" color="default">\n  note\n</Callout>\n`. -/
theorem claim_c8_callout (b : Block) (c : CalloutContent)
    (hdata : b.data = .callout c)
    (hicon : c.icon = some (.emojiIcon "💡"))
    (htext : rich_text_to_markdown c.rich_text = "note")
    (hcolor : c.color = .default) :
    block_to_mdx b 0 none =
      "<Callout icon=\"💡\" color=\"default\">\n  note\n</Callout>\n" := by
  simp [block_to_mdx, hdata, hicon, htext, hcolor, NotionColor.value]

/-- Concrete callout content for the claim C8 witness. -/
def sample_callout : CalloutContent :=
  { rich_text := [mk_text_span "note"], icon := some (.emojiIcon "💡") }

/-- Claim C8 witness: the callout theorem applied to a concrete callout
block. -/
theorem claim_c8_witness :
    ((mk_block (.callout sample_callout)).data = BlockData.callout sample_callout) ∧
    block_to_mdx (mk_block (.callout sample_callout)) 0 none =
      "<Callout icon=\"💡\" color=\"default\">\n  note\n</Callout>\n" :=
  ⟨rfl, claim_c8_callout _ _ rfl rfl (by decide) rfl⟩

/-- Claim C1, as amended (corrected): the discriminated union accepts
exactly the 30 literal tags (29 supported variants plus the literal
`unsupported`); a raw block whose discriminator is outside that closed
set is rejected by parsing with a validation error rather than mapped to
the unsupported variant; only the literal discriminator "unsupported"
selects the unsupported variant, and an unsupported block renders to the
empty string in both dialects without raising. -/
theorem claim_c1_unsupported (tag : String) (b : Block) (i : Nat) (n : Option Nat)
    (htag : tag ∉ supported_block_tags) (hb : b.data = .unsupported) :
    block_union_dispatch tag = none ∧
    block_union_dispatch "unsupported" = some "unsupported" ∧
    block_to_markdown b i n = "" ∧ block_to_mdx b i n = "" := by
  refine ⟨?_, by decide, ?_, ?_⟩
  · simp [block_union_dispatch, htag]
  · simp [block_to_markdown, hb]
  · simp [block_to_mdx, hb]

/-- Claim C1 witness: the amended claim applied to the unknown
discriminator "synced_block" and a concrete unsupported block. -/
theorem claim_c1_witness :
    ("synced_block" ∉ supported_block_tags) ∧
    ((mk_block .unsupported).data = BlockData.unsupported) ∧
    (block_union_dispatch "synced_block" = none ∧
     block_union_dispatch "unsupported" = some "unsupported" ∧
     block_to_markdown (mk_block .unsupported) 0 none = "" ∧
     block_to_mdx (mk_block .unsupported) 0 none = "") :=
  ⟨by decide, rfl,
    claim_c1_unsupported "synced_block" (mk_block .unsupported) 0 none (by decide) rfl⟩

/-- Claim C1 counterexample: a raw block with the unrecognized
discriminator "synced_block" is not mapped to the unsupported variant —
the union dispatch rejects it (a pydantic validation failure), so
parsing does fail solely because of the unrecognized discriminator. -/
theorem claim_c1_counterexample :
    block_union_dispatch "synced_block" ≠ some "unsupported" ∧
    block_union_dispatch "synced_block" = none := by
  decide

/-- Claim C7 (confirmed): the markup renderer emits a dedicated
`<Quote color="...">` component carrying the block color when the color
is non-default, and otherwise emits the plain-Markdown form in which
every line of the formatted text is prefixed with "> ". -/
theorem claim_c7_quote (b : Block) (c : QuoteContent) (i : Nat) (n : Option Nat)
    (hdata : b.data = .quote c) :
    (c.color.value ≠ "default" →
      block_to_mdx b i n =
        "<Quote color=\"" ++ c.color.value ++ "\">" ++
          rich_text_to_markdown c.rich_text ++ "</Quote>\n") ∧
    (c.color.value = "default" →
      block_to_mdx b i n =
        join_with "\n" ((split_newlines (rich_text_to_markdown c.rich_text)).map
          (fun line => "> " ++ line)) ++ "\n") := by
  constructor <;> intro h <;> simp [block_to_mdx, hdata, h]

/-- Concrete red quote content for the claim C7 witness. -/
def sample_quote_red : QuoteContent :=
  { rich_text := [mk_text_span "l1\nl2"], color := .red }

/-- Concrete default-color quote content for the claim C7 witness. -/
def sample_quote_default : QuoteContent :=
  { rich_text := [mk_text_span "l1\nl2"] }

/-- Claim C7 witness: the quote theorem applied to a concrete red quote
(component form) and a concrete default-color quote (blockquote form). -/
theorem claim_c7_witness :
    ((mk_block (.quote sample_quote_red)).data = BlockData.quote sample_quote_red) ∧
    (sample_quote_red.color.value ≠ "default") ∧
    ((mk_block (.quote sample_quote_default)).data = BlockData.quote sample_quote_default) ∧
    (sample_quote_default.color.value = "default") ∧
    block_to_mdx (mk_block (.quote sample_quote_red)) 0 none =
      "<Quote color=\"" ++ sample_quote_red.color.value ++ "\">" ++
        rich_text_to_markdown sample_quote_red.rich_text ++ "</Quote>\n" ∧
    block_to_mdx (mk_block (.quote sample_quote_default)) 0 none =
      join_with "\n" ((split_newlines (rich_text_to_markdown sample_quote_default.rich_text)).map
        (fun line => "> " ++ line)) ++ "\n" :=
  ⟨rfl, by decide, rfl, by decide,
    (claim_c7_quote _ sample_quote_red 0 none rfl).1 (by decide),
    (claim_c7_quote _ sample_quote_default 0 none rfl).2 (by decide)⟩

/-- Claim C10, as amended (corrected): with an empty caption list the
Markdown renderer uses the literal alt text "image" and the markup
renderer omits the alt attribute; with a non-empty caption list the
Markdown renderer always uses the formatted caption as alt text, but the
markup renderer keys on the formatted caption string, not the list — it
emits the alt attribute only when the formatted caption is non-empty and
omits it when the caption formats to the empty string. -/
theorem claim_c10_image (b : Block) (fo : FileObject) (i : Nat) (n : Option Nat)
    (hdata : b.data = .image fo) :
    (fo.caption = [] →
      block_to_markdown b i n = "![image](" ++ external_url fo ++ ")\n" ∧
      block_to_mdx b i n = "<Image src=\"" ++ external_url fo ++ "\" />\n") ∧
    (fo.caption ≠ [] →
      block_to_markdown b i n =
        "![" ++ rich_text_to_markdown fo.caption ++ "](" ++ external_url fo ++ ")\n") ∧
    (fo.caption ≠ [] → rich_text_to_markdown fo.caption ≠ "" →
      block_to_mdx b i n =
        "<Image src=\"" ++ external_url fo ++ "\" alt=\"" ++
          rich_text_to_markdown fo.caption ++ "\" />\n") ∧
    (rich_text_to_markdown fo.caption = "" →
      block_to_mdx b i n = "<Image src=\"" ++ external_url fo ++ "\" />\n") := by
  refine ⟨fun hc => ⟨?_, ?_⟩, fun hc => ?_, fun hc hf => ?_, fun hf => ?_⟩
  · simp [block_to_markdown, hdata, hc]
  · simp [block_to_mdx, hdata, hc, rich_text_to_markdown]
  · simp [block_to_markdown, hdata, hc]
  · simp [block_to_mdx, hdata, hc, hf]
  · by_cases hc : fo.caption = [] <;> simp [block_to_mdx, hdata, hc, hf]

/-- Concrete image payload with a caption for the claim C10 witness. -/
def sample_image_captioned : FileObject :=
  { type := "external", external := some { url := "u" },
    caption := [mk_text_span "cap"] }

/-- Concrete caption-less image payload for the claim C10 witness. -/
def sample_image_plain : FileObject :=
  { type := "external", external := some { url := "u" } }

/-- Claim C10 witness: the amended image theorem applied to a concrete
caption-less image and a concrete captioned image. -/
theorem claim_c10_witness :
    ((mk_block (.image sample_image_plain)).data = BlockData.image sample_image_plain) ∧
    (sample_image_plain.caption = []) ∧
    ((mk_block (.image sample_image_captioned)).data = BlockData.image sample_image_captioned) ∧
    (sample_image_captioned.caption ≠ []) ∧
    (rich_text_to_markdown sample_image_captioned.caption ≠ "") ∧
    (block_to_markdown (mk_block (.image sample_image_plain)) 0 none =
       "![image](" ++ external_url sample_image_plain ++ ")\n" ∧
     block_to_mdx (mk_block (.image sample_image_plain)) 0 none =
       "<Image src=\"" ++ external_url sample_image_plain ++ "\" />\n") ∧
    (block_to_markdown (mk_block (.image sample_image_captioned)) 0 none =
       "![" ++ rich_text_to_markdown sample_image_captioned.caption ++ "](" ++
         external_url sample_image_captioned ++ ")\n") ∧
    (block_to_mdx (mk_block (.image sample_image_captioned)) 0 none =
       "<Image src=\"" ++ external_url sample_image_captioned ++ "\" alt=\"" ++
         rich_text_to_markdown sample_image_captioned.caption ++ "\" />\n") :=
  ⟨rfl, rfl, rfl, by decide, by decide,
    (claim_c10_image _ sample_image_plain 0 none rfl).1 rfl,
    (claim_c10_image _ sample_image_captioned 0 none rfl).2.1 (by decide),
    (claim_c10_image _ sample_image_captioned 0 none rfl).2.2.1 (by decide) (by decide)⟩

/-- Concrete image payload whose caption list is non-empty but formats
to the empty string, for the claim C10 counterexample. -/
def sample_image_empty_caption : FileObject :=
  { type := "external", external := some { url := "u" },
    caption := [mk_text_span ""] }

/-- Claim C10 counterexample: an image whose caption list is non-empty
but formats to the empty string — the claim as stated says the markup
renderer uses the formatted caption as the alt attribute whenever the
caption list is non-empty, yet the code omits the alt attribute
entirely. -/
theorem claim_c10_counterexample :
    sample_image_empty_caption.caption ≠ [] ∧
    block_to_mdx (mk_block (.image sample_image_empty_caption)) 0 none =
      "<Image src=\"u\" />\n" ∧
    block_to_mdx (mk_block (.image sample_image_empty_caption)) 0 none ≠
      "<Image src=\"u\" alt=\"\" />\n" := by
  refine ⟨by decide, by decide, by decide⟩

/-- Reachability invariant of the assembly-loop state: either the
counter is 0 or the previous block was a numbered-list item. -/
def counter_inv (c : Nat) (p : Option String) : Prop :=
  c = 0 ∨ p = some "numbered_list_item"

lemma counter_step_eq_zero (c : Nat) (p : Option String) (bt : String)
    (hinv : counter_inv c p) (hbt : bt ≠ "numbered_list_item") :
    counter_step c p bt = 0 := by
  rcases hinv with h | h
  · by_cases hp : p = some "numbered_list_item" <;> simp [counter_step, hbt, hp, h]
  · simp [counter_step, hbt, h]

lemma counter_inv_step (c : Nat) (p : Option String) (bt : String)
    (hinv : counter_inv c p) :
    counter_inv (counter_step c p bt) (some bt) := by
  by_cases hbt : bt = "numbered_list_item"
  · right
    rw [hbt]
  · left
    exact counter_step_eq_zero c p bt hinv hbt

lemma counter_inv_state (xs : List String) :
    ∀ (c : Nat) (p : Option String), counter_inv c p →
      counter_inv (counter_state xs c p).1 (counter_state xs c p).2 := by
  induction xs with
  | nil => intro c p hinv; simpa [counter_state] using hinv
  | cons bt rest ih =>
    intro c p hinv
    simp only [counter_state]
    exact ih _ _ (counter_inv_step c p bt hinv)

lemma counter_state_append (xs ys : List String) (c : Nat) (p : Option String) :
    counter_state (xs ++ ys) c p =
      counter_state ys (counter_state xs c p).1 (counter_state xs c p).2 := by
  induction xs generalizing c p with
  | nil => simp [counter_state]
  | cons bt rest ih => simp [counter_state, ih]

lemma run_numbers_append (xs ys : List String) (c : Nat) (p : Option String) :
    run_numbers (xs ++ ys) c p =
      run_numbers xs c p ++
        run_numbers ys (counter_state xs c p).1 (counter_state xs c p).2 := by
  induction xs generalizing c p with
  | nil => simp [run_numbers, counter_state]
  | cons bt rest ih => simp [run_numbers, counter_state, ih]

lemma run_numbers_all_numbered (run : List String) :
    ∀ (c : Nat) (p : Option String), (∀ bt ∈ run, bt = "numbered_list_item") →
      run_numbers run c p = (List.range run.length).map (fun i => some (c + i + 1)) := by
  induction run with
  | nil => intro c p _; simp [run_numbers]
  | cons bt rest ih =>
    intro c p h
    have hbt : bt = "numbered_list_item" := h bt (by simp)
    subst hbt
    have hrest : ∀ b ∈ rest, b = "numbered_list_item" := fun b hb => h b (by simp [hb])
    have hstep : counter_step c p "numbered_list_item" = c + 1 := by simp [counter_step]
    simp only [run_numbers, hstep, if_pos]
    rw [ih (c + 1) (some "numbered_list_item") hrest]
    simp only [List.length_cons, List.range_succ_eq_map, List.map_cons, List.map_map]
    simp
    intro a _
    omega

/-- After processing, from the initial loop state, a prefix that is
empty or ends with a non-numbered-list block, the loop counter is 0. -/
lemma counter_state_reset (pre : List String)
    (hlast : ∀ bt, pre.getLast? = some bt → bt ≠ "numbered_list_item") :
    (counter_state pre 0 none).1 = 0 := by
  rcases hpre : pre.getLast? with _ | bt
  · have : pre = [] := List.getLast?_eq_none_iff.mp hpre
    subst this
    simp [counter_state]
  · have hne : pre ≠ [] := by
      intro hnil
      rw [hnil] at hpre
      simp at hpre
    have hb : pre.getLast hne = bt := by
      have h1 := List.getLast?_eq_getLast pre hne
      rw [hpre] at h1
      exact (Option.some.inj h1).symm
    have hsplit : pre.dropLast ++ [pre.getLast hne] = pre :=
      List.dropLast_append_getLast hne
    rw [← hsplit, counter_state_append]
    have hinv' := counter_inv_state pre.dropLast 0 none (Or.inl rfl)
    simp only [counter_state]
    rw [hb]
    exact counter_step_eq_zero _ _ _ hinv' (hlast bt hpre)

/-- Claim C3 (confirmed): in both dialects the document loop renders
each block with the numbers produced by the run-counter state machine
(`run_numbers`), and for any maximal run of consecutive numbered-list
blocks — i.e. one preceded by no block or by a block of another variant,
as any intervening block resets the next run — those numbers are
exactly 1, 2, ..., k, starting at 1 and incrementing by exactly 1. -/
theorem claim_c3_numbered_runs (pre run suf : List Block)
    (hrun : ∀ b ∈ run, Block.type b = "numbered_list_item")
    (hpre : ends_outside_numbered_run pre = true) :
    (((run_numbers ((pre ++ run ++ suf).map Block.type) 0 none).drop pre.length).take run.length
       = (List.range run.length).map (fun i => some (i + 1))) ∧
    (∀ render : Block → Nat → Option Nat → String,
      assemble_go render (pre ++ run ++ suf) 0 none =
        str_join (List.zipWith (fun b n => render b 0 n) (pre ++ run ++ suf)
          (run_numbers ((pre ++ run ++ suf).map Block.type) 0 none))) := by
  refine ⟨?_, fun render => assemble_go_eq render _ 0 none⟩
  have hmap : (pre ++ run ++ suf).map Block.type =
      pre.map Block.type ++ (run.map Block.type ++ suf.map Block.type) := by
    simp
  rw [hmap, run_numbers_append]
  have hlen1 : (run_numbers (pre.map Block.type) 0 none).length = pre.length := by
    rw [run_numbers_length, List.length_map]
  rw [List.drop_left' hlen1, run_numbers_append]
  have hlen2 : (run_numbers (run.map Block.type)
      (counter_state (pre.map Block.type) 0 none).1
      (counter_state (pre.map Block.type) 0 none).2).length = run.length := by
    rw [run_numbers_length, List.length_map]
  rw [List.take_left' hlen2]
  have hlast : ∀ bt, (pre.map Block.type).getLast? = some bt →
      bt ≠ "numbered_list_item" := by
    intro bt hbt
    rw [List.getLast?_map] at hbt
    rcases hgl : pre.getLast? with _ | b
    · rw [hgl] at hbt
      simp at hbt
    · rw [hgl] at hbt
      simp at hbt
      subst hbt
      have := hpre
      simp only [ends_outside_numbered_run, hgl] at this
      exact bne_iff_ne.mp this
  have hc0 : (counter_state (pre.map Block.type) 0 none).1 = 0 :=
    counter_state_reset _ hlast
  have hrunT : ∀ bt ∈ run.map Block.type, bt = "numbered_list_item" := by
    intro bt hbt
    obtain ⟨b, hb, rfl⟩ := List.mem_map.mp hbt
    exact hrun b hb
  rw [run_numbers_all_numbered _ _ _ hrunT, hc0, List.length_map]
  simp

/-- Concrete block list segments for the claim C3 witness: a paragraph,
then a run of two numbered-list items, then a divider. -/
def sample_pre : List Block :=
  [mk_block (.paragraph { rich_text := [mk_text_span "p"] })]

/-- The numbered-list run of the claim C3 witness. -/
def sample_run : List Block :=
  [mk_block (.numbered_list_item { rich_text := [mk_text_span "a"] }),
   mk_block (.numbered_list_item { rich_text := [mk_text_span "b"] })]

/-- The suffix of the claim C3 witness. -/
def sample_suf : List Block := [mk_block .divider]

/-- Claim C3 witness: the run-numbering theorem applied to a concrete
paragraph / two-item numbered run / divider sequence, instantiating the
renderer quantifier at the Markdown renderer. -/
theorem claim_c3_witness :
    (∀ b ∈ sample_run, Block.type b = "numbered_list_item") ∧
    ends_outside_numbered_run sample_pre = true ∧
    (((run_numbers ((sample_pre ++ sample_run ++ sample_suf).map Block.type) 0 none).drop
        sample_pre.length).take sample_run.length
      = (List.range sample_run.length).map (fun i => some (i + 1))) ∧
    assemble_go block_to_markdown (sample_pre ++ sample_run ++ sample_suf) 0 none =
      str_join (List.zipWith (fun b n => block_to_markdown b 0 n)
        (sample_pre ++ sample_run ++ sample_suf)
        (run_numbers ((sample_pre ++ sample_run ++ sample_suf).map Block.type) 0 none)) := by
  have h := claim_c3_numbered_runs sample_pre sample_run sample_suf
    (by decide) (by decide)
  exact ⟨by decide, by decide, h.1, h.2 block_to_markdown⟩

lemma fetch_go_spec (ps : List PageBlocksResponse) (last : PageBlocksResponse) :
    ∀ (acc : List Block) (f : PageBlocksResponse),
      (∀ p ∈ ps, p.has_more = true) → last.has_more = false →
      fetch_all_blocks_go (ps ++ [last]) acc (some f) =
        some { f with results := acc ++ ((ps ++ [last]).map (fun p => p.results)).flatten,
                      has_more := false, next_cursor := none } := by
  induction ps with
  | nil =>
    intro acc f _ hlast
    simp [fetch_all_blocks_go, hlast]
  | cons p rest ih =>
    intro acc f hps hlast
    have hp : p.has_more = true := hps p (by simp)
    have hrest : ∀ q ∈ rest, q.has_more = true := fun q hq => hps q (by simp [hq])
    simp only [List.cons_append, fetch_all_blocks_go, hp, if_pos, List.append_eq]
    rw [ih (acc ++ p.results) f hrest hlast]
    simp [List.append_assoc]

/-- Claim C9 (confirmed): assuming every page request succeeds and the
pages form a finite cursor chain (each non-final page reports
`has_more`, the final one does not), `fetch_all_blocks` returns a single
response whose results are the concatenation of all pages' results in
request order, with `has_more` cleared to `False` and `next_cursor`
cleared to `None` — no partial or cursor state is exposed. -/
theorem claim_c9_fetch_merge (ps : List PageBlocksResponse) (last : PageBlocksResponse)
    (hps : ∀ p ∈ ps, p.has_more = true) (hlast : last.has_more = false) :
    ∃ r, fetch_all_blocks (ps ++ [last]) = some r ∧
      r.results = ((ps ++ [last]).map (fun p => p.results)).flatten ∧
      r.has_more = false ∧ r.next_cursor = none := by
  cases ps with
  | nil =>
    refine ⟨{ last with has_more := false, next_cursor := none }, ?_, by simp, rfl, rfl⟩
    simp [fetch_all_blocks, fetch_all_blocks_go, hlast]
  | cons p rest =>
    have hp : p.has_more = true := hps p (by simp)
    have hrest : ∀ q ∈ rest, q.has_more = true := fun q hq => hps q (by simp [hq])
    refine ⟨{ p with
        results := p.results ++ ((rest ++ [last]).map (fun q => q.results)).flatten,
        has_more := false, next_cursor := none }, ?_, by simp, rfl, rfl⟩
    show fetch_all_blocks_go ((p :: rest) ++ [last]) [] none = _
    simp only [List.cons_append, fetch_all_blocks_go, hp, if_pos, List.append_eq]
    rw [show ([] : List Block) ++ p.results = p.results from by simp]
    rw [fetch_go_spec rest last p.results p hrest hlast]

/-- First page of the claim C9 witness chain: reports more pages. -/
def sample_page_1 : PageBlocksResponse :=
  { results := [mk_block .divider], has_more := true, next_cursor := some "c2" }

/-- Final page of the claim C9 witness chain. -/
def sample_page_2 : PageBlocksResponse :=
  { results := [mk_block .breadcrumb, mk_block .column] }

/-- Claim C9 witness: the merge theorem applied to a concrete two-page
chain. -/
theorem claim_c9_witness :
    (∀ p ∈ [sample_page_1], p.has_more = true) ∧
    sample_page_2.has_more = false ∧
    (∃ r, fetch_all_blocks ([sample_page_1] ++ [sample_page_2]) = some r ∧
      r.results = (([sample_page_1] ++ [sample_page_2]).map (fun p => p.results)).flatten ∧
      r.has_more = false ∧ r.next_cursor = none) :=
  ⟨by decide, rfl, claim_c9_fetch_merge [sample_page_1] sample_page_2 (by decide) rfl⟩

end NotionMdx
